import Mathlib

/-!
Verification development for the website-framing-proxy repository.

The TypeScript sources are embedded shallowly: JavaScript strings are
modelled as `List Char`, JavaScript `Map`s and header bags as association
lists preserving insertion order, and the handful of library calls the
code makes (`String.prototype.split`, `trim`, `toLowerCase`, `includes`,
`startsWith`, `endsWith`, the WHATWG `URL` constructor, `JSON.parse` /
`JSON.stringify`) are given executable Lean models restricted to the
behaviour the proxy exercises (ASCII text, `http:`/`https:` URLs without
dot-segments or percent-escapes).
-/

namespace FramingProxy

/-- JavaScript strings, modelled as lists of characters. -/
abbrev Str := List Char

/-- Turn a Lean string literal into the `List Char` model. -/
def str (s : String) : Str := s.data

/-- JS `s.startsWith(p)`. -/
def jsStartsWith : Str → Str → Bool
  | _, [] => true
  | [], _ :: _ => false
  | c :: s, p :: ps => c == p && jsStartsWith s ps

/-- JS `s.endsWith(p)`. -/
def jsEndsWith (s p : Str) : Bool := jsStartsWith s.reverse p.reverse

/-- JS `s.toLowerCase()` (ASCII). -/
def jsToLower (s : Str) : Str := s.map Char.toLower

/-- JS `s.trim()`. -/
def jsTrim (s : Str) : Str :=
  ((s.dropWhile Char.isWhitespace).reverse.dropWhile Char.isWhitespace).reverse

/-- Split `s` at the first occurrence of the pattern `sep`, returning the
text before the match and the text after it; `none` when `sep` does not
occur (`sep` is assumed non-empty by callers). -/
def breakOn (sep : Str) : Str → Option (Str × Str)
  | [] => if sep.isEmpty then some ([], []) else none
  | c :: rest =>
    if jsStartsWith (c :: rest) sep then some ([], (c :: rest).drop sep.length)
    else (breakOn sep rest).map (fun ab => (c :: ab.1, ab.2))

/-- Fuel-driven worker for `jsSplit`; each step removes at least one
character, so `s.length + 1` fuel always suffices. -/
def jsSplitF (sep : Str) : Nat → Str → List Str
  | 0, s => [s]
  | fuel + 1, s =>
    match breakOn sep s with
    | none => [s]
    | some (a, b) => a :: jsSplitF sep fuel b

/-- JS `s.split(sep)` for a non-empty string separator. -/
def jsSplit (sep s : Str) : List Str := jsSplitF sep (s.length + 1) s

/-- Fuel-driven worker for `splitWs`. -/
def splitWsF : Nat → Str → Str → List Str
  | 0, cur, _ => [cur.reverse]
  | _ + 1, cur, [] => [cur.reverse]
  | fuel + 1, cur, c :: rest =>
    if c.isWhitespace then
      cur.reverse :: splitWsF fuel [] (rest.dropWhile Char.isWhitespace)
    else
      splitWsF fuel (c :: cur) rest

/-- JS `s.split(/\s+/)` as used on already-trimmed directive text: a run of
whitespace is a single separator. -/
def splitWs (s : Str) : List Str := splitWsF (s.length + 1) [] s

/-- JS `s.includes(p)`. -/
def jsIncludes : Str → Str → Bool
  | s, p =>
    jsStartsWith s p ||
      match s with
      | [] => false
      | _ :: rest => jsIncludes rest p

/-- JS `xs.join(sep)`. -/
def joinStr (sep : Str) (xs : List Str) : Str := List.intercalate sep xs

/-- JS `s.replace(target, repl)` with a plain-string `target`: replaces the
first occurrence only. -/
def replaceFirst (s target repl : Str) : Str :=
  match breakOn target s with
  | none => s
  | some (a, b) => a ++ repl ++ b

/-! ### The WHATWG `URL` model

Only `http:`/`https:` URLs are modelled, which is all the proxy ever
constructs; hosts are lowercased as the `URL` constructor does, and an
empty path normalises to `/`.  Dot-segment and percent-escape
normalisation are not modelled (no input in this development uses them). -/

/-- The components of a parsed JS `URL` object. -/
structure JsUrl where
  protocol : String
  hostname : Str
  port : Str
  pathname : Str
  search : Str
  hash : Str
deriving DecidableEq

/-- JS `url.host`: hostname plus `:port` when a port is present. -/
def JsUrl.host (u : JsUrl) : Str :=
  u.hostname ++ (if u.port = [] then [] else ':' :: u.port)

/-- Split a path-query-fragment suffix into `(pathname, search, hash)`. -/
def splitPathSearchHash (s : Str) : Str × Str × Str :=
  match breakOn (str ("#")) s with
  | some (beforeHash, afterHash) =>
    match breakOn (str ("?")) beforeHash with
    | some (p, q) => (p, '?' :: q, '#' :: afterHash)
    | none => (beforeHash, [], '#' :: afterHash)
  | none =>
    match breakOn (str ("?")) s with
    | some (p, q) => (p, '?' :: q, [])
    | none => (s, [], [])

/-- Model of `new URL(s)` for absolute `http:`/`https:` URLs; `none` models
the constructor throwing. -/
def parseJsUrl (s : Str) : Option JsUrl :=
  let schemeRest : Option (String × Str) :=
    if jsStartsWith s (str ("http://")) then some ("http:", s.drop 7)
    else if jsStartsWith s (str ("https://")) then some ("https:", s.drop 8)
    else none
  match schemeRest with
  | none => none
  | some (proto, rest) =>
    let authority := rest.takeWhile (fun c => c ≠ '/' && c ≠ '?' && c ≠ '#')
    let tail := rest.drop authority.length
    let hostPort : Str × Str :=
      match breakOn (str (":")) authority with
      | some (h, p) => (h, p)
      | none => (authority, [])
    if hostPort.1 = [] then none
    else if !hostPort.2.all Char.isDigit then none
    else
      let psh := splitPathSearchHash tail
      some
        { protocol := proto
          hostname := jsToLower hostPort.1
          port := hostPort.2
          pathname := if psh.1 = [] then str ("/") else psh.1
          search := psh.2.1
          hash := psh.2.2 }

/-- JS `url.toString()` for the values produced by `parseJsUrl`. -/
def JsUrl.toStr (u : JsUrl) : Str :=
  u.protocol.data ++ str ("//") ++ u.host ++ u.pathname ++ u.search ++ u.hash

/-- Model of `new URL(loc, base)` for the location shapes a redirect can
carry (absolute, protocol-relative, absolute-path, query, fragment, or
bare-relative); dot-segments are not normalised. -/
def resolveJsUrl (loc : Str) (base : JsUrl) : Option JsUrl :=
  if jsStartsWith loc (str ("http://")) || jsStartsWith loc (str ("https://")) then
    parseJsUrl loc
  else if jsStartsWith loc (str ("//")) then
    parseJsUrl (base.protocol.data ++ loc)
  else if jsStartsWith loc (str ("/")) then
    let psh := splitPathSearchHash loc
    some { base with pathname := psh.1, search := psh.2.1, hash := psh.2.2 }
  else if jsStartsWith loc (str ("?")) then
    let psh := splitPathSearchHash loc
    some { base with search := psh.2.1, hash := psh.2.2 }
  else if jsStartsWith loc (str ("#")) then
    some { base with hash := loc }
  else
    let dir := base.pathname.reverse.dropWhile (fun c => c ≠ '/') |>.reverse
    let psh := splitPathSearchHash (dir ++ loc)
    some { base with pathname := psh.1, search := psh.2.1, hash := psh.2.2 }

/-! ### `src/processing/url-rewriter.ts` — `UrlRewriter` -/

/-- `RewriteContext` from `src/processing/url-rewriter.ts`. -/
structure RewriteContext where
  originalUrl : Str
  proxyBaseUrl : Str
  targetDomain : Str
  targetPath : Str
deriving DecidableEq

/-- `UrlRewriter.rewriteUrl` (url-rewriter.ts lines 69–106): rewrite a single
URL to go through the proxy.  A `URL`-constructor failure in the absolute
branch is the only statement that can throw inside the `try`, and the
`catch` returns the original url, hence the `none => url` arm. -/
def rewriteUrl (url : Str) (ctx : RewriteContext) : Str :=
  if url = [] || jsStartsWith url (str ("data:")) || jsStartsWith url (str ("javascript:"))
      || jsStartsWith url (str ("#")) then
    url
  else if jsStartsWith url (str ("/")) then
    ctx.proxyBaseUrl ++ str ("/proxy/") ++ ctx.targetDomain ++ url
  else if jsStartsWith url (str ("//")) then
    -- unreachable in practice: the previous branch already catches `//`;
    -- kept to mirror the source line for line
    let domain := ((jsSplit (str ("/")) (url.drop 2)).headD [])
    if domain = [] then url
    else
      let path := url.drop (2 + domain.length)
      ctx.proxyBaseUrl ++ str ("/proxy/") ++ domain ++ path
  else if jsStartsWith url (str ("http://")) || jsStartsWith url (str ("https://")) then
    match parseJsUrl url with
    | none => url
    | some u =>
      ctx.proxyBaseUrl ++ str ("/proxy/") ++ u.hostname ++ u.pathname ++ u.search ++ u.hash
  else if !jsStartsWith url (str ("http")) && !jsStartsWith url (str ("/")) then
    let basePath :=
      if jsEndsWith ctx.targetPath (str ("/")) then ctx.targetPath
      else ctx.targetPath ++ str ("/")
    ctx.proxyBaseUrl ++ str ("/proxy/") ++ ctx.targetDomain ++ basePath ++ url
  else url

/-! ### Regex machinery for the HTML/CSS/JS passes

The rewriter's regexes are hand-compiled: each pattern gets a matcher that
returns the matched length and the single capture group, mirroring the
greedy/backtracking semantics of the JS engine on these patterns.  Global
`replace` scans left to right as `lastIndex` does; the fuel argument is
always instantiated with the string length plus one, which suffices
because every step consumes at least one character. -/

/-- Case-insensitive literal match (the passes are `/gi` regexes): returns
the remaining input when `s` starts with `lit` up to ASCII case. -/
def ciPrefixDrop (lit s : Str) : Option Str :=
  if jsToLower (s.take lit.length) = jsToLower lit then some (s.drop lit.length) else none

/-- All ways to split the maximal run of characters satisfying `p` off the
front of `s`, longest first — the backtracking order of a greedy `[^>]*`. -/
def gapSplits (p : Char → Bool) (s : Str) : List (Str × Str) :=
  let run := s.takeWhile p
  let rest := s.drop run.length
  (List.range (run.length + 1)).reverse.map (fun k => (run.take k, run.drop k ++ rest))

/-- First `some` produced by `f` along a list. -/
def firstSome {α β : Type} (f : α → Option β) : List α → Option β
  | [] => none
  | a :: as =>
    match f a with
    | some b => some b
    | none => firstSome f as

/-- Is `c` one of the two JS quote characters `["']`? -/
def isQuote (c : Char) : Bool := c == '"' || c == '\''

/-- Matcher for the tag-attribute patterns
`<TAG\s+[^>]*ATTR\s*=\s*["']([^"']+)["'][^>]*>` (flags `gi`) shared by the
base/link/script/img/iframe/form/a passes of `UrlRewriter`.  Returns the
match length (from the start of `s`) and the capture. -/
def matchTagAttrAt (tag attr : Str) (s : Str) : Option (Nat × Str) :=
  match ciPrefixDrop ('<' :: tag) s with
  | none => none
  | some s1 =>
    let ws := s1.takeWhile Char.isWhitespace
    if ws = [] then none
    else
      let s2 := s1.drop ws.length
      firstSome
        (fun gapRest =>
          match ciPrefixDrop attr gapRest.2 with
          | none => none
          | some r1 =>
            let r2 := r1.dropWhile Char.isWhitespace
            match r2 with
            | '=' :: r3 =>
              let r4 := r3.dropWhile Char.isWhitespace
              match r4 with
              | q1 :: r5 =>
                if !isQuote q1 then none
                else
                  let cap := r5.takeWhile (fun c => !isQuote c)
                  if cap = [] then none
                  else
                    match r5.drop cap.length with
                    | q2 :: r6 =>
                      if !isQuote q2 then none
                      else
                        let gap2 := r6.takeWhile (fun c => c ≠ '>')
                        match r6.drop gap2.length with
                        | '>' :: r7 => some (s.length - r7.length, cap)
                        | _ => none
                    | [] => none
              | [] => none
            | _ => none)
        (gapSplits (fun c => c ≠ '>') s2)

/-- One global-replace scan: at each position try `matchAt`; on a match,
emit `match.replace(capture, rewriteUrl capture ctx)` (first occurrence
only, as the source does) and continue after the match. -/
def regexReplaceScan (matchAt : Str → Option (Nat × Str)) (ctx : RewriteContext) :
    Nat → Str → Str
  | 0, s => s
  | _ + 1, [] => []
  | fuel + 1, c :: rest =>
    match matchAt (c :: rest) with
    | some (len, cap) =>
      if len = 0 then c :: regexReplaceScan matchAt ctx fuel rest
      else
        let matched := (c :: rest).take len
        replaceFirst matched cap (rewriteUrl cap ctx) ++
          regexReplaceScan matchAt ctx fuel ((c :: rest).drop len)
    | none => c :: regexReplaceScan matchAt ctx fuel rest

/-- A whole tag-attribute pass (`rewriteBaseTag`, `rewriteLinkTags`, …). -/
def tagAttrPass (tag attr : Str) (html : Str) (ctx : RewriteContext) : Str :=
  regexReplaceScan (matchTagAttrAt tag attr) ctx (html.length + 1) html

/-- Matcher for the CSS pass `url\s*\(\s*["']?([^"')]+)["']?\s*\)` (`gi`). -/
def matchCssUrlAt (s : Str) : Option (Nat × Str) :=
  match ciPrefixDrop (str ("url")) s with
  | none => none
  | some s1 =>
    match (s1.dropWhile Char.isWhitespace) with
    | '(' :: s2 =>
      let s3 := s2.dropWhile Char.isWhitespace
      let s4 := match s3 with
                | q :: t => if isQuote q then t else s3
                | [] => s3
      let cap := s4.takeWhile (fun c => !isQuote c && c ≠ ')')
      if cap = [] then none
      else
        let s5 := s4.drop cap.length
        let s6 := match s5 with
                  | q :: t => if isQuote q then t else s5
                  | [] => s5
        match s6.dropWhile Char.isWhitespace with
        | ')' :: r => some (s.length - r.length, cap)
        | _ => none
    | _ => none

/-- The CSS `url()` pass (`rewriteCssUrls` in url-rewriter.ts, also the
body of `ContentProcessor.processCssContent`). -/
def cssUrlPass (textIn : Str) (ctx : RewriteContext) : Str :=
  regexReplaceScan matchCssUrlAt ctx (textIn.length + 1) textIn

/-- Matcher for call patterns `KW\s*\(\s*["']([^"']+)["']` (`gi`), where
`KW` ranges over an alternation of literal keywords. -/
def matchCallAt (kws : List Str) (s : Str) : Option (Nat × Str) :=
  firstSome
    (fun kw =>
      match ciPrefixDrop kw s with
      | none => none
      | some s1 =>
        match s1.dropWhile Char.isWhitespace with
        | '(' :: s2 =>
          match s2.dropWhile Char.isWhitespace with
          | q1 :: s3 =>
            if !isQuote q1 then none
            else
              let cap := s3.takeWhile (fun c => !isQuote c)
              if cap = [] then none
              else
                match s3.drop cap.length with
                | q2 :: r =>
                  if isQuote q2 then some (s.length - r.length, cap) else none
                | [] => none
          | [] => none
        | _ => none)
    kws

/-- A call-pattern pass (`rewriteInlineJsUrls`, and the two passes of
`ContentProcessor.processJavaScriptContent`). -/
def callPass (kws : List Str) (textIn : Str) (ctx : RewriteContext) : Str :=
  regexReplaceScan (matchCallAt kws) ctx (textIn.length + 1) textIn

/-- `UrlRewriter.rewriteHtmlContent` (url-rewriter.ts lines 20–64): the nine
regex passes in source order.  None of the passes can throw, so the
`catch` arm returning the original html is dead in the embedding. -/
def rewriteHtmlContent (html : Str) (ctx : RewriteContext) : Str :=
  let h1 := tagAttrPass (str ("base")) (str ("href")) html ctx
  let h2 := tagAttrPass (str ("link")) (str ("href")) h1 ctx
  let h3 := tagAttrPass (str ("script")) (str ("src")) h2 ctx
  let h4 := tagAttrPass (str ("img")) (str ("src")) h3 ctx
  let h5 := tagAttrPass (str ("iframe")) (str ("src")) h4 ctx
  let h6 := tagAttrPass (str ("form")) (str ("action")) h5 ctx
  let h7 := tagAttrPass (str ("a")) (str ("href")) h6 ctx
  let h8 := cssUrlPass h7 ctx
  callPass
    [str ("fetch"), str ("XMLHttpRequest"), str ("axios"), str ("jQuery.ajax")]
    h8 ctx

/-! ### JSON model (`JSON.parse` / `JSON.stringify`)

Numbers keep their source text verbatim; no claim depends on how JS
re-formats a number, and everything else round-trips exactly. -/

/-- Parsed JSON values. -/
inductive JsonValue where
  | jnull
  | jbool (b : Bool)
  | jnum (raw : Str)
  | jstr (s : Str)
  | jarr (xs : List JsonValue)
  | jobj (kvs : List (Str × JsonValue))

/-- Skip JSON whitespace. -/
def skipWsJson (s : Str) : Str :=
  s.dropWhile (fun c => c == ' ' || c == '\t' || c == '\n' || c == '\r')

/-- Hex digit value. -/
def hexVal (c : Char) : Option Nat :=
  if '0' ≤ c ∧ c ≤ '9' then some (c.toNat - '0'.toNat)
  else if 'a' ≤ c ∧ c ≤ 'f' then some (c.toNat - 'a'.toNat + 10)
  else if 'A' ≤ c ∧ c ≤ 'F' then some (c.toNat - 'A'.toNat + 10)
  else none

/-- Decode one escape character (after the backslash) of a JSON string. -/
def decodeJsonEscape (e : Char) (rest : Str) : Option (Char × Str) :=
  if e == '"' then some ('"', rest)
  else if e == '\\' then some ('\\', rest)
  else if e == '/' then some ('/', rest)
  else if e == 'b' then some ('\x08', rest)
  else if e == 'f' then some ('\x0c', rest)
  else if e == 'n' then some ('\n', rest)
  else if e == 'r' then some ('\r', rest)
  else if e == 't' then some ('\t', rest)
  else if e == 'u' then
    match rest with
    | h1 :: h2 :: h3 :: h4 :: rest2 =>
      match hexVal h1, hexVal h2, hexVal h3, hexVal h4 with
      | some a, some b, some c, some d =>
        some (Char.ofNat (((a * 16 + b) * 16 + c) * 16 + d), rest2)
      | _, _, _, _ => none
    | _ => none
  else none

/-- Fuel-driven worker for `parseJsonString`. -/
def parseJsonStringF : Nat → Str → Option (Str × Str)
  | 0, _ => none
  | _ + 1, [] => none
  | fuel + 1, c :: rest =>
    if c == '"' then some ([], rest)
    else if c == '\\' then
      match rest with
      | [] => none
      | e :: rest2 =>
        match decodeJsonEscape e rest2 with
        | none => none
        | some (ch, r) => (parseJsonStringF fuel r).map (fun p => (ch :: p.1, p.2))
    else if c.toNat < 0x20 then none
    else (parseJsonStringF fuel rest).map (fun p => (c :: p.1, p.2))

/-- Parse the body of a JSON string (after the opening quote), handling the
standard escapes; control characters are rejected as `JSON.parse` does. -/
def parseJsonString (s : Str) : Option (Str × Str) :=
  parseJsonStringF (s.length + 1) s

/-- Parse a JSON number, returning its source text. -/
def parseJsonNumber (s : Str) : Option (Str × Str) :=
  let afterSign := if jsStartsWith s (str ("-")) then s.drop 1 else s
  let intPart :=
    match afterSign with
    | '0' :: _ => str ("0")
    | c :: _ => if c.isDigit then afterSign.takeWhile Char.isDigit else []
    | [] => []
  if intPart = [] then none
  else
    let r1 := afterSign.drop intPart.length
    let fracPart :=
      match r1 with
      | '.' :: t =>
        let ds := t.takeWhile Char.isDigit
        if ds = [] then none else some ('.' :: ds)
      | _ => some []
    match fracPart with
    | none => none
    | some fp =>
      let r2 := r1.drop fp.length
      let expPart :=
        match r2 with
        | e :: t =>
          if e == 'e' || e == 'E' then
            let t2 := match t with
                      | sgn :: t3 => if sgn == '+' || sgn == '-' then t3 else t
                      | [] => t
            let ds := t2.takeWhile Char.isDigit
            if ds = [] then none
            else some (e :: (t.take (t.length - t2.length)) ++ ds)
          else some []
        | [] => some []
      match expPart with
      | none => none
      | some ep =>
        let consumed := (if jsStartsWith s (str ("-")) then 1 else 0) +
          intPart.length + fp.length + ep.length
        some (s.take consumed, s.drop consumed)

mutual

/-- Fuel-driven recursive-descent JSON value parser. -/
def parseJsonValue : Nat → Str → Option (JsonValue × Str)
  | 0, _ => none
  | fuel + 1, s0 =>
    let s := skipWsJson s0
    if jsStartsWith s (str ("null")) then some (.jnull, s.drop 4)
    else if jsStartsWith s (str ("true")) then some (.jbool true, s.drop 4)
    else if jsStartsWith s (str ("false")) then some (.jbool false, s.drop 5)
    else
      match s with
      | '"' :: rest => (parseJsonString rest).map (fun p => (.jstr p.1, p.2))
      | '[' :: rest =>
        let r := skipWsJson rest
        (match r with
         | ']' :: r2 => some (.jarr [], r2)
         | _ => (parseJsonItems fuel r).map (fun p => (.jarr p.1, p.2)))
      | '\x7b' :: rest =>
        let r := skipWsJson rest
        (match r with
         | '\x7d' :: r2 => some (.jobj [], r2)
         | _ => (parseJsonMembers fuel r).map (fun p => (.jobj p.1, p.2)))
      | _ => (parseJsonNumber s).map (fun p => (.jnum p.1, p.2))

/-- Array elements after `[`, up to and including the closing `]`. -/
def parseJsonItems : Nat → Str → Option (List JsonValue × Str)
  | 0, _ => none
  | fuel + 1, s =>
    match parseJsonValue fuel s with
    | none => none
    | some (v, r) =>
      match skipWsJson r with
      | ',' :: r2 => (parseJsonItems fuel r2).map (fun p => (v :: p.1, p.2))
      | ']' :: r2 => some ([v], r2)
      | _ => none

/-- Object members after `{`, up to and including the closing `}`. -/
def parseJsonMembers : Nat → Str → Option (List (Str × JsonValue) × Str)
  | 0, _ => none
  | fuel + 1, s =>
    match skipWsJson s with
    | '"' :: rest =>
      match parseJsonString rest with
      | none => none
      | some (k, r) =>
        match skipWsJson r with
        | ':' :: r2 =>
          match parseJsonValue fuel r2 with
          | none => none
          | some (v, r3) =>
            match skipWsJson r3 with
            | ',' :: r4 => (parseJsonMembers fuel r4).map (fun p => ((k, v) :: p.1, p.2))
            | '\x7d' :: r4 => some ([(k, v)], r4)
            | _ => none
        | _ => none
    | _ => none

end

/-- Model of `JSON.parse`: `none` models a thrown `SyntaxError`. -/
def jsonParse (s : Str) : Option JsonValue :=
  match parseJsonValue (2 * s.length + 2) s with
  | none => none
  | some (v, rest) => if skipWsJson rest = [] then some v else none

/-- `JSON.stringify` escaping of one string character. -/
def escapeJsonChar (c : Char) : Str :=
  if c == '"' then str ("\\\"")
  else if c == '\\' then str ("\\\\")
  else if c == '\n' then str ("\\n")
  else if c == '\r' then str ("\\r")
  else if c == '\t' then str ("\\t")
  else if c == '\x08' then str ("\\b")
  else if c == '\x0c' then str ("\\f")
  else if c.toNat < 0x20 then
    str ("\\u00") ++
      [(str ("0123456789abcdef")).getD (c.toNat / 16) '0',
       (str ("0123456789abcdef")).getD (c.toNat % 16) '0']
  else [c]

/-- `JSON.stringify` of a string. -/
def stringifyJsonString (s : Str) : Str :=
  '"' :: (s.map escapeJsonChar).flatten ++ str ("\"")

mutual

/-- Model of `JSON.stringify` (no spacing argument). -/
def jsonStringify : JsonValue → Str
  | .jnull => str ("null")
  | .jbool true => str ("true")
  | .jbool false => str ("false")
  | .jnum raw => raw
  | .jstr s => stringifyJsonString s
  | .jarr xs => '[' :: joinStr (str (",")) (jsonStringifyList xs) ++ str ("]")
  | .jobj kvs => '\x7b' :: joinStr (str (",")) (jsonStringifyMembers kvs) ++ str ("\x7d")

/-- Stringify array elements. -/
def jsonStringifyList : List JsonValue → List Str
  | [] => []
  | v :: vs => jsonStringify v :: jsonStringifyList vs

/-- Stringify object members. -/
def jsonStringifyMembers : List (Str × JsonValue) → List Str
  | [] => []
  | (k, v) :: kvs => (stringifyJsonString k ++ str (":") ++ jsonStringify v) :: jsonStringifyMembers kvs

end

/-! ### `src/processing/content-processor.ts` — `ContentProcessor` -/

/-- `ProcessingOptions` from content-processor.ts. -/
structure ProcessingOptions where
  rewriteUrls : Bool
  injectScripts : Bool
  preserveCookies : Bool
deriving DecidableEq

/-- The default options of `processContent`. -/
def defaultProcessingOptions : ProcessingOptions :=
  { rewriteUrls := true, injectScripts := true, preserveCookies := true }

/-- `ContentProcessor.extractMimeType` (content-processor.ts lines 274–279). -/
def extractMimeType (contentType : Str) : Str :=
  if contentType = [] then str ("text/plain")
  else
    let mimeType := jsToLower (jsTrim ((jsSplit (str (";")) contentType).headD []))
    if mimeType = [] then str ("text/plain") else mimeType

/-- The inline proxy script template of `ContentProcessor.injectProxyScripts`
(content-processor.ts lines 200–244), with the two context interpolations. -/
def proxyScriptTemplate (ctx : RewriteContext) : Str :=
  joinStr (str ("\n"))
    [ str (""),
      str ("    <script>"),
      str ("      // Proxy script for AJAX interception"),
      str ("      (function() \x7b"),
      str ("        const originalFetch = window.fetch;"),
      str ("        const originalXHROpen = XMLHttpRequest.prototype.open;"),
      str ("        const proxyBase = '") ++ ctx.proxyBaseUrl ++ str ("';"),
      str ("        const targetDomain = '") ++ ctx.targetDomain ++ str ("';"),
      str ("        "),
      str ("        // Intercept fetch requests"),
      str ("        window.fetch = function(url, options) \x7b"),
      str ("          if (typeof url === 'string' && !url.startsWith(proxyBase)) \x7b"),
      str ("            const rewrittenUrl = rewriteUrlForProxy(url);"),
      str ("            console.log('Proxy: Rewriting fetch URL', url, '->', rewrittenUrl);"),
      str ("            return originalFetch.call(this, rewrittenUrl, options);"),
      str ("          \x7d"),
      str ("          return originalFetch.call(this, url, options);"),
      str ("        \x7d;"),
      str ("        "),
      str ("        // Intercept XMLHttpRequest"),
      str ("        XMLHttpRequest.prototype.open = function(method, url, async, user, password) \x7b"),
      str ("          if (typeof url === 'string' && !url.startsWith(proxyBase)) \x7b"),
      str ("            const rewrittenUrl = rewriteUrlForProxy(url);"),
      str ("            console.log('Proxy: Rewriting XHR URL', url, '->', rewrittenUrl);"),
      str ("            return originalXHROpen.call(this, method, rewrittenUrl, async, user, password);"),
      str ("          \x7d"),
      str ("          return originalXHROpen.call(this, method, url, async, user, password);"),
      str ("        \x7d;"),
      str ("        "),
      str ("        function rewriteUrlForProxy(url) \x7b"),
      str ("          if (url.startsWith('http://') || url.startsWith('https://')) \x7b"),
      str ("            const urlObj = new URL(url);"),
      str ("            const path = urlObj.pathname + urlObj.search + urlObj.hash;"),
      str ("            return proxyBase + '/proxy/' + urlObj.hostname + path;"),
      str ("          \x7d else if (url.startsWith('/')) \x7b"),
      str ("            return proxyBase + '/proxy/' + targetDomain + url;"),
      str ("          \x7d else if (url.startsWith('//')) \x7b"),
      str ("            const domain = url.substring(2).split('/')[0];"),
      str ("            const path = url.substring(2 + domain.length);"),
      str ("            return proxyBase + '/proxy/' + domain + path;"),
      str ("          \x7d"),
      str ("          return url;"),
      str ("        \x7d"),
      str ("      \x7d)();"),
      str ("    </script>") ]

/-- `ContentProcessor.injectProxyScripts` (content-processor.ts lines 199–254). -/
def injectProxyScripts (html : Str) (ctx : RewriteContext) : Str :=
  let proxyScript := proxyScriptTemplate ctx
  if jsIncludes html (str ("</head>")) then
    replaceFirst html (str ("</head>")) (proxyScript ++ str ("</head>"))
  else if jsIncludes html (str ("<body")) then
    replaceFirst html (str ("<body")) (proxyScript ++ str ("<body"))
  else
    proxyScript ++ html

/-- `ContentProcessor.ensureBaseTag` (content-processor.ts lines 256–272). -/
def ensureBaseTag (html : Str) (ctx : RewriteContext) : Str :=
  if jsIncludes html (str ("<base")) then html
  else
    let baseTag := str ("<base href=\"") ++ ctx.proxyBaseUrl ++ str ("/proxy/") ++
      ctx.targetDomain ++ str ("/\">")
    if jsIncludes html (str ("<head>")) then
      replaceFirst html (str ("<head>")) (str ("<head>") ++ baseTag)
    else if jsIncludes html (str ("<html>")) then
      replaceFirst html (str ("<html>")) (str ("<html><head>") ++ baseTag ++ str ("</head>"))
    else
      baseTag ++ html

/-- `ContentProcessor.processHtmlContent` (content-processor.ts lines 66–89). -/
def processHtmlContent (html : Str) (ctx : RewriteContext) (opts : ProcessingOptions) : Str :=
  let h1 := if opts.rewriteUrls then rewriteHtmlContent html ctx else html
  let h2 := if opts.injectScripts then injectProxyScripts h1 ctx else h1
  ensureBaseTag h2 ctx

/-- `ContentProcessor.processCssContent` (content-processor.ts lines 91–110). -/
def processCssContent (css : Str) (ctx : RewriteContext) (opts : ProcessingOptions) : Str :=
  if !opts.rewriteUrls then css else cssUrlPass css ctx

/-- `ContentProcessor.processJavaScriptContent` (content-processor.ts lines
112–145): the `fetch(` pass, then the `.open(` pass. -/
def processJavaScriptContent (js : Str) (ctx : RewriteContext) (opts : ProcessingOptions) : Str :=
  if !opts.rewriteUrls then js
  else callPass [str (".open")] (callPass [str ("fetch")] js ctx) ctx

/-- `ContentProcessor.looksLikeUrl` (content-processor.ts lines 192–197). -/
def looksLikeUrl (s : Str) : Bool :=
  jsStartsWith s (str ("http://")) || jsStartsWith s (str ("https://")) ||
    jsStartsWith s (str ("//")) || jsStartsWith s (str ("/"))

mutual

/-- `ContentProcessor.rewriteUrlsInObject` (content-processor.ts lines 168–190). -/
def rewriteUrlsInObject (ctx : RewriteContext) : JsonValue → JsonValue
  | .jstr s => if looksLikeUrl s then .jstr (rewriteUrl s ctx) else .jstr s
  | .jarr xs => .jarr (rewriteUrlsInList ctx xs)
  | .jobj kvs => .jobj (rewriteUrlsInMembers ctx kvs)
  | v => v

/-- `rewriteUrlsInObject` on array elements. -/
def rewriteUrlsInList (ctx : RewriteContext) : List JsonValue → List JsonValue
  | [] => []
  | v :: vs => rewriteUrlsInObject ctx v :: rewriteUrlsInList ctx vs

/-- `rewriteUrlsInObject` on object members (keys untouched). -/
def rewriteUrlsInMembers (ctx : RewriteContext) :
    List (Str × JsonValue) → List (Str × JsonValue)
  | [] => []
  | (k, v) :: kvs => (k, rewriteUrlsInObject ctx v) :: rewriteUrlsInMembers ctx kvs

end

/-- `ContentProcessor.processJsonContent` (content-processor.ts lines
147–166): a `JSON.parse` failure is caught and the original text returned. -/
def processJsonContent (json : Str) (ctx : RewriteContext) (opts : ProcessingOptions) : Str :=
  if !opts.rewriteUrls then json
  else
    match jsonParse json with
    | none => json
    | some v => jsonStringify (rewriteUrlsInObject ctx v)

/-- `ContentProcessor.processContent` (content-processor.ts lines 22–64):
MIME-type dispatch.  The sub-processors are total, so the surrounding
`catch` that would return the original content is dead in the embedding. -/
def processContent (content contentType : Str) (ctx : RewriteContext)
    (opts : ProcessingOptions) : Str :=
  let mimeType := extractMimeType contentType
  if mimeType = str ("text/html") then processHtmlContent content ctx opts
  else if mimeType = str ("text/css") then processCssContent content ctx opts
  else if mimeType = str ("application/javascript") ∨ mimeType = str ("text/javascript") then
    processJavaScriptContent content ctx opts
  else if mimeType = str ("application/json") then processJsonContent content ctx opts
  else content

/-! ### Header bags and plain-object records -/

/-- An HTTP header bag in insertion order. -/
abbrev Headers := List (Str × Str)

/-- Case-insensitive header-name comparison (Node's `setHeader` et al.). -/
def hKeyMatches (k n : Str) : Bool := jsToLower k == jsToLower n

/-- Node `res.setHeader(n, v)`: replaces any existing header of that name. -/
def hSet (h : Headers) (n v : Str) : Headers :=
  h.filter (fun kv => !hKeyMatches kv.1 n) ++ [(n, v)]

/-- Node `res.removeHeader(n)`. -/
def hRemove (h : Headers) (n : Str) : Headers :=
  h.filter (fun kv => !hKeyMatches kv.1 n)

/-- Node `res.getHeader(n)`. -/
def hGet (h : Headers) (n : Str) : Option Str :=
  (h.find? (fun kv => hKeyMatches kv.1 n)).map (fun kv => kv.2)

/-- JS plain-object / `Map` lookup with exact keys. -/
def recGet {α : Type} (m : List (Str × α)) (k : Str) : Option α :=
  (m.find? (fun kv => kv.1 == k)).map (fun kv => kv.2)

/-- JS plain-object / `Map` assignment: overwrites in place, else appends. -/
def recSet {α : Type} (m : List (Str × α)) (k : Str) (v : α) : List (Str × α) :=
  if m.any (fun kv => kv.1 == k) then
    m.map (fun kv => if kv.1 == k then (kv.1, v) else kv)
  else m ++ [(k, v)]

/-- JS `delete obj[k]` / `Map.delete`. -/
def recDelete {α : Type} (m : List (Str × α)) (k : Str) : List (Str × α) :=
  m.filter (fun kv => !(kv.1 == k))

/-! ### `src/processing/header-manipulation.ts` — `HeaderManipulator` -/

/-- `HeaderManipulator.parseCSPDirectives` (header-manipulation.ts lines
126–140): split on `;`, trim, split each directive on whitespace; keep a
directive only when it has a name and at least one value. -/
def parseCSPDirectives (cspHeader : Str) : List (Str × List Str) :=
  (jsSplit (str (";")) cspHeader).foldl
    (fun acc directive =>
      let trimmed := jsTrim directive
      if trimmed ≠ [] then
        let parts := splitWs trimmed
        let name := parts.headD []
        let values := parts.tail
        if name ≠ [] ∧ values.length > 0 then recSet acc (jsToLower name) values
        else acc
      else acc)
    []

/-- `HeaderManipulator.buildCSPDirectives` (header-manipulation.ts lines
145–149). -/
def buildCSPDirectives (directives : List (Str × List Str)) : Str :=
  joinStr (str ("; "))
    (directives.map (fun kv => kv.1 ++ str (" ") ++ joinStr (str (" ")) kv.2))

/-- `HeaderManipulator.mapCookieDomain` (header-manipulation.ts lines
105–121): rewrite a `Domain=` attribute to the proxy host. -/
def mapCookieDomain (cookie reqHost : Str) : Str :=
  let parts := (jsSplit (str (";")) cookie).map jsTrim
  let cookieNameValue := parts.headD []
  let attributes := parts.tail
  let mappedAttributes := attributes.map
    (fun attr =>
      if jsStartsWith (jsToLower attr) (str ("domain=")) then str ("Domain=") ++ reqHost
      else attr)
  joinStr (str ("; ")) (cookieNameValue :: mappedAttributes)

/-- The headers of the upstream `proxyRes` (Node lowercases the keys; the
`set-cookie` array is held separately, as Node does). -/
structure UpstreamHeaders where
  base : Headers
  setCookie : Option (List Str)

/-- The headers set on the Express `res` (case-insensitive names; the
`Set-Cookie` array held separately). -/
structure ResHeaders where
  base : Headers
  setCookie : Option (List Str)

/-- `HeaderManipulator.removeAntiFramingHeaders` (lines 48–56): deletes
`x-frame-options` from the upstream header object when present (JS
truthiness: an empty value is not deleted there) and unconditionally
removes it from `res`. -/
def removeAntiFramingHeaders (up : UpstreamHeaders) (res : ResHeaders) :
    UpstreamHeaders × ResHeaders :=
  let upBase :=
    match recGet up.base (str ("x-frame-options")) with
    | some v => if v = [] then up.base else recDelete up.base (str ("x-frame-options"))
    | none => up.base
  ({ up with base := upBase },
   { res with base := hRemove res.base (str ("X-Frame-Options")) })

/-- `HeaderManipulator.overrideCSPFrameAncestors` (lines 61–75): when the
upstream carries a (truthy) CSP, drop `frame-ancestors` from its parsed
directives and set the rebuilt header on `res` — also when the rebuilt
value is the empty string. -/
def overrideCSPFrameAncestors (up : UpstreamHeaders) (res : ResHeaders) : ResHeaders :=
  match recGet up.base (str ("content-security-policy")) with
  | some v =>
    if v = [] then res
    else
      let cspDirectives := parseCSPDirectives v
      let remaining := recDelete cspDirectives (str ("frame-ancestors"))
      let newBase := hSet res.base (str ("Content-Security-Policy")) (buildCSPDirectives remaining)
      { res with base := newBase }
  | none => res

/-- `HeaderManipulator.addCORSHeaders` (lines 80–85). -/
def addCORSHeaders (res : ResHeaders) : ResHeaders :=
  let b1 := hSet res.base (str ("Access-Control-Allow-Origin")) (str ("*"))
  let b2 := hSet b1 (str ("Access-Control-Allow-Methods"))
    (str ("GET, POST, PUT, DELETE, OPTIONS, PATCH"))
  let b3 := hSet b2 (str ("Access-Control-Allow-Headers"))
    (str ("Content-Type, Authorization, X-Requested-With, Accept, Origin"))
  let b4 := hSet b3 (str ("Access-Control-Allow-Credentials")) (str ("true"))
  { res with base := b4 }

/-- `HeaderManipulator.mapCookieDomains` (lines 90–100). -/
def mapCookieDomains (up : UpstreamHeaders) (res : ResHeaders) (reqHost : Str) : ResHeaders :=
  match up.setCookie with
  | some cookies => { res with setCookie := some (cookies.map (fun c => mapCookieDomain c reqHost)) }
  | none => res

/-- `HeaderManipulator.manipulateResponseHeaders` (lines 27–43): the four
steps in source order.  `reqHost` is `req.get('host')`. -/
def manipulateResponseHeaders (up : UpstreamHeaders) (reqHost : Str) (res : ResHeaders) :
    UpstreamHeaders × ResHeaders :=
  let p1 := removeAntiFramingHeaders up res
  let res2 := overrideCSPFrameAncestors p1.1 p1.2
  let res3 := addCORSHeaders res2
  let res4 := mapCookieDomains p1.1 res3 reqHost
  (p1.1, res4)

/-! ### `src/processing/cookie-manager.ts` — `CookieManager` -/

/-- `CookieMapping` from cookie-manager.ts: one per origin domain. -/
structure CookieMapping where
  originalDomain : Str
  proxyDomain : Str
  cookies : List (Str × Str)

/-- The process-wide `cookieMappings` table, keyed by origin domain. -/
abbrev CookieState := List (Str × CookieMapping)

/-- `CookieManager.parseCookie` (cookie-manager.ts lines 214–246), returned
as the JS object it builds: the `name`/`value` keys first, then the
lowercased attribute keys — an attribute literally named `name` or `value`
overwrites the pair, exactly as in the source. -/
def parseCookie (cookie : Str) : Option (List (Str × Str)) :=
  let parts := (jsSplit (str (";")) cookie).map jsTrim
  let nameValue := parts.headD []
  if nameValue = [] ∨ !jsIncludes nameValue (str ("=")) then none
  else
    let nv := jsSplit (str ("=")) nameValue
    let name := nv.headD []
    let value := (nv.drop 1).headD []
    if name = [] ∨ value = [] then none
    else
      let parsed0 := recSet (recSet [] (str ("name")) (jsTrim name)) (str ("value")) (jsTrim value)
      let parsed := parts.tail.foldl
        (fun acc part =>
          if part ≠ [] ∧ jsIncludes part (str ("=")) then
            let kv := jsSplit (str ("=")) part
            let k := kv.headD []
            let v := (kv.drop 1).headD []
            if k ≠ [] ∧ v ≠ [] then recSet acc (jsToLower (jsTrim k)) (jsTrim v) else acc
          else if part ≠ [] then recSet acc (jsToLower part) (str ("true"))
          else acc)
        parsed0
      some parsed

/-- Lookup on a parsed cookie object, with `''` for an absent key (only
used where the source interpolates or truth-tests the property). -/
def cookieProp (parsed : List (Str × Str)) (k : String) : Str :=
  (recGet parsed (str (k))).getD []

/-- `CookieManager.createMappedCookie` (cookie-manager.ts lines 251–293). -/
def createMappedCookie (parsed : List (Str × Str)) (proxyDomain : Str) : Str :=
  let parts0 : List Str :=
    [cookieProp parsed ("name") ++ str ("=") ++ cookieProp parsed ("value"),
     str ("Domain=") ++ proxyDomain,
     str ("Path=") ++ (if cookieProp parsed ("path") = [] then str ("/") else cookieProp parsed ("path"))]
  let parts1 := parts0 ++
    (if cookieProp parsed ("expires") ≠ [] then [str ("Expires=") ++ cookieProp parsed ("expires")] else []) ++
    (if cookieProp parsed ("max-age") ≠ [] then [str ("Max-Age=") ++ cookieProp parsed ("max-age")] else []) ++
    (if cookieProp parsed ("secure") = str ("true") then [str ("Secure")] else []) ++
    (if cookieProp parsed ("httponly") = str ("true") then [str ("HttpOnly")] else []) ++
    (if cookieProp parsed ("samesite") ≠ [] then [str ("SameSite=") ++ cookieProp parsed ("samesite")] else [])
  joinStr (str ("; ")) parts1

/-- `CookieManager.processResponseCookies` (cookie-manager.ts lines
149–184): record each parsed cookie's `name=value` under the origin
domain (creating the mapping on first use) and emit the proxy-domain
rewrite of each cookie. -/
def processResponseCookies (st : CookieState) (originalCookies : List Str)
    (originalDomain proxyDomain : Str) : CookieState × List Str :=
  let mapping :=
    match recGet st originalDomain with
    | some m => m
    | none => { originalDomain := originalDomain, proxyDomain := proxyDomain, cookies := [] }
  let folded := originalCookies.foldl
    (fun (acc : CookieMapping × List Str) cookie =>
      match parseCookie cookie with
      | none => acc
      | some parsed =>
        let nm := cookieProp parsed ("name")
        let cookies2 := recSet acc.1.cookies nm (nm ++ str ("=") ++ cookieProp parsed ("value"))
        let mappedCookie := createMappedCookie parsed proxyDomain
        ({ acc.1 with cookies := cookies2 }, acc.2 ++ [mappedCookie]))
    (mapping, [])
  (recSet st originalDomain folded.1, folded.2)

/-- `CookieManager.processRequestCookies` (cookie-manager.ts lines
189–209): with no mapping for the domain the header passes through
unchanged; otherwise only pairs whose name has a recorded value are kept,
each replaced by that recorded `name=value`. -/
def processRequestCookies (st : CookieState) (requestCookies : Str)
    (originalDomain : Str) : Str :=
  match recGet st originalDomain with
  | none => requestCookies
  | some mapping =>
    let cookiePairs := ((jsSplit (str (";")) requestCookies).map jsTrim).filter (fun c => c ≠ [])
    let originalCookies := cookiePairs.foldl
      (fun acc cookiePair =>
        let name := (jsSplit (str ("=")) cookiePair).headD []
        if name ≠ [] then
          match recGet mapping.cookies name with
          | some v => acc ++ [v]
          | none => acc
        else acc)
      []
    joinStr (str ("; ")) originalCookies

/-! ### `src/server/proxy-server.ts` — `ProxyServer` (hybrid variant) -/

/-- The two request fields `extractTargetUrl` reads. -/
structure ReqInfo where
  path : Str
  url : Str

/-- The target-URL construction of `ProxyServer.extractTargetUrl` before
the `nouns.com` fix-up (all three `ProxyServer` variants share it). -/
def rawTargetUrl (req : ReqInfo) : Option Str :=
  let pathParts := jsSplit (str ("/")) req.path
  if pathParts.length < 3 ∨ (pathParts.drop 1).headD [] ≠ str ("proxy") then none
  else
    let targetDomain := (pathParts.drop 2).headD []
    if targetDomain = [] then none
    else
      let remainingPath := joinStr (str ("/")) (pathParts.drop 3)
      let base :=
        if jsStartsWith targetDomain (str ("http://")) ||
            jsStartsWith targetDomain (str ("https://")) then targetDomain
        else if jsIncludes targetDomain (str ("localhost")) ||
            jsIncludes targetDomain (str ("127.0.0.1")) then
          str ("http://") ++ targetDomain
        else str ("https://") ++ targetDomain
      some (if remainingPath ≠ [] then base ++ str ("/") ++ remainingPath else base)

/-- The "specific redirect cases" fix-up of `extractTargetUrl`. -/
def nounsFix (targetUrl : Str) : Str :=
  if targetUrl = str ("https://nouns.com") ∨ targetUrl = str ("https://nouns.com/") then
    str ("https://www.nouns.com/")
  else targetUrl

/-- The query-string append and `new URL` validation that close
`extractTargetUrl`. -/
def finishTargetUrl (targetUrl : Str) (req : ReqInfo) : Option Str :=
  let withQuery :=
    if jsIncludes req.url (str ("?")) then
      targetUrl ++ str ("?") ++ ((jsSplit (str ("?")) req.url).drop 1).headD []
    else targetUrl
  if (parseJsUrl withQuery).isSome then some withQuery else none

/-- `ProxyServer.extractTargetUrl`: raw construction, `nouns.com` fix-up,
query append, `new URL` validation. -/
def extractTargetUrl (req : ReqInfo) : Option Str :=
  (rawTargetUrl req).bind (fun t0 => finishTargetUrl (nounsFix t0) req)

/-- The redirect branch of `ProxyServer.makeDirectProxyRequest` (hybrid
variant, lines 765–774): for a 3xx status with a `Location`, resolve a
non-`http`-prefixed location against the target URL and answer
`res.redirect(status, "/proxy/" + hostname + pathname + search)`. -/
def handleRedirect (statusCode : Nat) (location : Option Str) (targetUrl : JsUrl) :
    Option (Nat × Str) :=
  if 300 ≤ statusCode ∧ statusCode < 400 then
    match location with
    | none => none
    | some loc =>
      let redirectUrl :=
        if jsStartsWith loc (str ("http")) then parseJsUrl loc
        else resolveJsUrl loc targetUrl
      redirectUrl.map (fun u => (statusCode, str ("/proxy/") ++ u.hostname ++ u.pathname ++ u.search))
  else none

/-- A JSON error body, as its field list. -/
abbrev ErrBody := List (Str × Str)

/-- The status/body mapping of the `proxyReq.on('error')` handler
(hybrid variant, lines 953–966). -/
def directProxyErrorResponse (msg : Str) : Nat × ErrBody :=
  if jsIncludes msg (str ("timeout")) then
    (504, [(str ("error"), str ("Proxy request timeout")),
           (str ("details"), str ("The target server took too long to respond"))])
  else if jsIncludes msg (str ("ECONNREFUSED")) then
    (502, [(str ("error"), str ("Connection refused")),
           (str ("details"), str ("Unable to connect to target server"))])
  else if jsIncludes msg (str ("ENOTFOUND")) then
    (502, [(str ("error"), str ("Host not found")),
           (str ("details"), str ("Target hostname could not be resolved"))])
  else
    (500, [(str ("error"), str ("Proxy request failed")), (str ("details"), msg)])

/-- The `proxyReq.on('error')` handler: writes only when response headers
have not been sent. -/
def onProxyReqError (headersSent : Bool) (msg : Str) : Option (Nat × ErrBody) :=
  if headersSent then none else some (directProxyErrorResponse msg)

/-- The two timeout listeners (hybrid variant, lines 969–983) in
registration order: the `on('timeout')` handler answers 504 with a
`details` field and thereby marks headers sent; the `setTimeout` callback
then finds `headersSent` and writes nothing. -/
def onProxyReqTimeout (headersSent : Bool) : List (Nat × ErrBody) :=
  let w1 : Option (Nat × ErrBody) :=
    if headersSent then none
    else some (504, [(str ("error"), str ("Proxy request timeout")),
                     (str ("details"), str ("The target server took too long to respond"))])
  let hs2 := headersSent || w1.isSome
  let w2 : Option (Nat × ErrBody) :=
    if hs2 then none
    else some (504, [(str ("error"), str ("Proxy request timeout"))])
  w1.toList ++ w2.toList

/-! ### Shared concrete contexts for scenario statements -/

/-- The rewrite context of the spec's Scenario 1. -/
def scenarioCtx : RewriteContext :=
  { originalUrl := str ("https://example.com/"),
    proxyBaseUrl := str ("http://localhost:3000"),
    targetDomain := str ("example.com"),
    targetPath := str ("/") }

/-- The cookie table after the origin `origin.com` answered
`Set-Cookie: id=abc; Domain=origin.com` through `processResponseCookies`. -/
def cookieScenarioState : CookieState :=
  (processResponseCookies [] [str ("id=abc; Domain=origin.com")]
    (str ("origin.com")) (str ("localhost:3000"))).1

/-- An upstream response whose whole CSP is a `frame-ancestors` directive. -/
def cspScenarioUp : UpstreamHeaders :=
  { base := [(str ("content-security-policy"), str ("frame-ancestors 'self'"))],
    setCookie := none }

/-- An empty outgoing response-header state. -/
def emptyRes : ResHeaders := { base := [], setCookie := none }

/-- Build a `ReqInfo` from its `path` and `url` strings. -/
def mkReq (p u : String) : ReqInfo := { path := str (p), url := str (u) }

/-- The parse of `https://example.com/old`, the target of the spec's
Scenario 3. -/
def exampleOldUrl : JsUrl :=
  { protocol := "https:", hostname := str ("example.com"), port := [],
    pathname := str ("/old"), search := [], hash := [] }

/-! ## Theorems -/

/-- All ways the first guard of `rewriteUrl` can fire return the input
unchanged: empty, `data:`, `javascript:`, and hash-fragment URLs. -/
theorem rewriteUrl_skip (url : Str) (ctx : RewriteContext)
    (h : url = [] ∨ jsStartsWith url (str ("data:")) = true ∨
      jsStartsWith url (str ("javascript:")) = true ∨
      jsStartsWith url (str ("#")) = true) :
    rewriteUrl url ctx = url := by
  rcases h with h | h | h | h
  · subst h; rfl
  all_goals simp [rewriteUrl, h]

/-- Every string starts with the empty pattern. -/
@[simp] theorem jsStartsWith_nil (s : Str) : jsStartsWith s [] = true := by
  cases s <;> rfl

/-- A URL starting with `/` is resolved against `ctx.targetDomain` under
the canonical `/proxy/` prefix. -/
theorem rewriteUrl_absolute_path (url : Str) (ctx : RewriteContext)
    (h : jsStartsWith url (str ("/")) = true) :
    rewriteUrl url ctx = ctx.proxyBaseUrl ++ str ("/proxy/") ++ ctx.targetDomain ++ url := by
  cases url with
  | nil => exact absurd h (by decide)
  | cons c t =>
    have hc : c = '/' := by
      have hb : ((c == '/') && jsStartsWith t []) = true := h
      simpa using hb
    subst hc
    have e1 : jsStartsWith ('/' :: t) (str ("data:")) = false := rfl
    have e2 : jsStartsWith ('/' :: t) (str ("javascript:")) = false := rfl
    have e3 : jsStartsWith ('/' :: t) (str ("#")) = false := rfl
    have e4 : decide (('/' :: t : Str) = []) = false := rfl
    have e5 : jsStartsWith ('/' :: t) (str ("/")) = true := h
    simp only [rewriteUrl, e1, e2, e3, e4, e5, Bool.or_false, Bool.false_or]
    simp

/-- C1, counterexample: `rewriteUrl` is not idempotent — re-translating the
already-proxied form of `/logo.png` changes it again, and an input whose
path already starts with `/proxy/` is not returned unchanged. -/
theorem urlTranslator_idempotence_cex :
    rewriteUrl (rewriteUrl (str ("/logo.png")) scenarioCtx) scenarioCtx ≠
      rewriteUrl (str ("/logo.png")) scenarioCtx ∧
    rewriteUrl (str ("/proxy/example.com/logo.png")) scenarioCtx ≠
      str ("/proxy/example.com/logo.png") := by
  constructor
  · decide
  · decide

/-- C1, amended: `rewriteUrl` returns `data:`, `javascript:` and
hash-fragment inputs unchanged but has no already-proxied check and is
not idempotent — a second pass re-prefixes `{proxyBase}/proxy/{host}`,
and a path already starting with `/proxy/` is rewritten like any other
absolute path. -/
theorem urlTranslator_idempotence_amended :
    (∀ url ctx, jsStartsWith url (str ("data:")) = true ∨
        jsStartsWith url (str ("javascript:")) = true ∨
        jsStartsWith url (str ("#")) = true →
      rewriteUrl url ctx = url) ∧
    rewriteUrl (rewriteUrl (str ("/logo.png")) scenarioCtx) scenarioCtx =
      str ("http://localhost:3000/proxy/localhost/proxy/example.com/logo.png") ∧
    rewriteUrl (str ("/proxy/example.com/logo.png")) scenarioCtx =
      str ("http://localhost:3000/proxy/example.com/proxy/example.com/logo.png") := by
  refine ⟨fun url ctx h => rewriteUrl_skip url ctx (Or.inr h), by decide, by decide⟩

/-- C1 witness: the amended unchanged-classes clause at `data:x`. -/
theorem urlTranslator_idempotence_amended_witness :
    jsStartsWith (str ("data:x")) (str ("data:")) = true ∧
    rewriteUrl (str ("data:x")) scenarioCtx = str ("data:x") :=
  ⟨by decide,
   urlTranslator_idempotence_amended.1 (str ("data:x")) scenarioCtx (Or.inl (by decide))⟩

/-- C2: an absolute-path URL resolves against the context's target domain,
and rewriting `<img src="/logo.png">` with target `example.com` and proxy
base `http://localhost:3000` produces the proxied image tag of Scenario 1. -/
theorem absolutePath_resolution :
    (∀ url ctx, jsStartsWith url (str ("/")) = true →
      rewriteUrl url ctx = ctx.proxyBaseUrl ++ str ("/proxy/") ++ ctx.targetDomain ++ url) ∧
    rewriteHtmlContent (str ("<img src=\"/logo.png\">")) scenarioCtx =
      str ("<img src=\"http://localhost:3000/proxy/example.com/logo.png\">") := by
  exact ⟨rewriteUrl_absolute_path, by decide⟩

/-- C2 witness: the absolute-path clause at `/logo.png`. -/
theorem absolutePath_resolution_witness :
    jsStartsWith (str ("/logo.png")) (str ("/")) = true ∧
    rewriteUrl (str ("/logo.png")) scenarioCtx =
      str ("http://localhost:3000/proxy/example.com/logo.png") :=
  ⟨by decide, absolutePath_resolution.1 (str ("/logo.png")) scenarioCtx (by decide)⟩

/-- C3, counterexample: `blob:`, `mailto:` and `tel:` URLs are not returned
unchanged — `rewriteUrl` treats them as bare-relative paths. -/
theorem neverRewritten_schemes_cex :
    rewriteUrl (str ("mailto:user@example.com")) scenarioCtx ≠
      str ("mailto:user@example.com") ∧
    rewriteUrl (str ("tel:+15551234")) scenarioCtx ≠ str ("tel:+15551234") ∧
    rewriteUrl (str ("blob:https://example.com/abc")) scenarioCtx ≠
      str ("blob:https://example.com/abc") := by
  refine ⟨by decide, by decide, by decide⟩

/-- C3, amended: `data:`, `javascript:` and hash-fragment URLs are returned
unchanged, but of the claim's listed classes `blob:`, `mailto:` and
`tel:` URLs are not recognised — they fall into the bare-relative branch
and are resolved against the target path. -/
theorem neverRewritten_schemes_amended :
    (∀ url ctx, jsStartsWith url (str ("data:")) = true ∨
        jsStartsWith url (str ("javascript:")) = true ∨
        jsStartsWith url (str ("#")) = true →
      rewriteUrl url ctx = url) ∧
    rewriteUrl (str ("mailto:user@example.com")) scenarioCtx =
      str ("http://localhost:3000/proxy/example.com/mailto:user@example.com") ∧
    rewriteUrl (str ("tel:+15551234")) scenarioCtx =
      str ("http://localhost:3000/proxy/example.com/tel:+15551234") ∧
    rewriteUrl (str ("blob:https://example.com/abc")) scenarioCtx =
      str ("http://localhost:3000/proxy/example.com/blob:https://example.com/abc") := by
  refine ⟨fun url ctx h => rewriteUrl_skip url ctx (Or.inr h), by decide, by decide, by decide⟩

/-- C3 witness: the unchanged clause at `javascript:void(0)` and `#top`. -/
theorem neverRewritten_schemes_amended_witness :
    jsStartsWith (str ("javascript:void(0)")) (str ("javascript:")) = true ∧
    rewriteUrl (str ("javascript:void(0)")) scenarioCtx = str ("javascript:void(0)") ∧
    rewriteUrl (str ("#top")) scenarioCtx = str ("#top") :=
  ⟨by decide,
   neverRewritten_schemes_amended.1 (str ("javascript:void(0)")) scenarioCtx
     (Or.inr (Or.inl (by decide))),
   neverRewritten_schemes_amended.1 (str ("#top")) scenarioCtx
     (Or.inr (Or.inr (by decide)))⟩

/-- C4, counterexample: with a mapping recorded for `origin.com`, a request
cookie whose name has no recorded value does not pass through — it is
dropped from the outbound header. -/
theorem cookieMapping_passthrough_cex :
    processRequestCookies cookieScenarioState (str ("id=stale; other=1"))
        (str ("origin.com")) = str ("id=abc") ∧
    jsIncludes (processRequestCookies cookieScenarioState (str ("id=stale; other=1"))
        (str ("origin.com"))) (str ("other")) = false := by
  refine ⟨by decide, by decide⟩

/-- C4, amended: after `processResponseCookies` records `id=abc` for a
domain, `processRequestCookies` for that domain replaces a request cookie
`id=stale` by `id=abc`; request cookies with no recorded value are
dropped, and the whole header passes through verbatim only when no
mapping exists for the domain at all. -/
theorem cookieMapping_amended :
    processRequestCookies cookieScenarioState (str ("id=stale"))
        (str ("origin.com")) = str ("id=abc") ∧
    processRequestCookies cookieScenarioState (str ("id=stale; other=1"))
        (str ("origin.com")) = str ("id=abc") ∧
    (∀ st requestCookies d, recGet st d = none →
      processRequestCookies st requestCookies d = requestCookies) := by
  refine ⟨by decide, by decide, fun st requestCookies d h => ?_⟩
  simp [processRequestCookies, h]

/-- C4 witness: the no-mapping clause on the empty table. -/
theorem cookieMapping_amended_witness :
    recGet ([] : CookieState) (str ("origin.com")) = none ∧
    processRequestCookies [] (str ("sid=1; other=2")) (str ("origin.com")) =
      str ("sid=1; other=2") :=
  ⟨rfl, cookieMapping_amended.2.2 [] (str ("sid=1; other=2")) (str ("origin.com")) rfl⟩

/-! ### Association-list lemmas for the header model -/

/-- `hKeyMatches` unfolds to equality of lowercased names. -/
theorem hKeyMatches_iff (k n : Str) : hKeyMatches k n = true ↔ jsToLower k = jsToLower n := by
  simp [hKeyMatches]

/-- Looking up any name matching a just-removed one yields nothing. -/
theorem hGet_hRemove_match (h : Headers) (m n : Str) (hmn : hKeyMatches m n = true) :
    hGet (hRemove h m) n = none := by
  have hmn2 := (hKeyMatches_iff m n).mp hmn
  induction h with
  | nil => rfl
  | cons kv t ih =>
    by_cases hc : hKeyMatches kv.1 m
    · have hstep : hRemove (kv :: t) m = hRemove t m := by
        simp [hRemove, List.filter_cons, hc]
      rw [hstep]; exact ih
    · have hstep : hRemove (kv :: t) m = kv :: hRemove t m := by
        simp [hRemove, List.filter_cons, hc]
      have hkn : ¬hKeyMatches kv.1 n = true := by
        rw [hKeyMatches_iff]
        intro hcontra
        exact hc ((hKeyMatches_iff kv.1 m).mpr (hcontra.trans hmn2.symm))
      rw [hstep]
      have hfind : hGet (kv :: hRemove t m) n = hGet (hRemove t m) n := by
        simp [hGet, hkn]
      rw [hfind]; exact ih

/-- Setting one name does not affect lookups of a non-matching name. -/
theorem hGet_hSet_ne (h : Headers) (m n v : Str) (hnm : hKeyMatches m n = false) :
    hGet (hSet h m v) n = hGet h n := by
  induction h with
  | nil => simp [hSet, hGet, hnm]
  | cons kv t ih =>
    by_cases hc : hKeyMatches kv.1 m
    · have hkn : hKeyMatches kv.1 n = false := by
        rw [hKeyMatches_iff] at hc
        rw [Bool.eq_false_iff]
        rw [Ne, hKeyMatches_iff, hc]
        intro hcontra
        rw [Bool.eq_false_iff] at hnm
        exact hnm (by rwa [hKeyMatches_iff])
      simp only [hSet, List.filter_cons, hc] at *
      simpa [hGet, hkn] using ih
    · simp only [hSet, List.filter_cons, hc] at *
      by_cases hkn : hKeyMatches kv.1 n
      · simp [hGet, hkn]
      · simpa [hGet, hkn] using ih

/-- Setting a name makes a matching lookup return the new value. -/
theorem hGet_hSet_match (h : Headers) (m n v : Str) (hnm : hKeyMatches m n = true) :
    hGet (hSet h m v) n = some v := by
  have hmn : jsToLower m = jsToLower n := (hKeyMatches_iff m n).mp hnm
  induction h with
  | nil => simp [hSet, hGet, hnm]
  | cons kv t ih =>
    by_cases hc : hKeyMatches kv.1 m
    · simpa [hSet, List.filter_cons, hc] using ih
    · have hkn : hKeyMatches kv.1 n = false := by
        rw [Bool.eq_false_iff, Ne, hKeyMatches_iff]
        intro hcontra
        exact hc ((hKeyMatches_iff kv.1 m).mpr (hcontra.trans hmn.symm))
      simp only [hSet, List.filter_cons, hc] at *
      simpa [hGet, hkn] using ih

/-- Deleting one exact key does not affect lookups of a different key. -/
theorem recGet_recDelete_ne {α : Type} (m : List (Str × α)) (k k2 : Str) (hk : k2 ≠ k) :
    recGet (recDelete m k) k2 = recGet m k2 := by
  induction m with
  | nil => rfl
  | cons kv t ih =>
    by_cases hc : kv.1 = k
    · have hkn : (kv.1 == k2) = false := by
        simp only [beq_eq_false_iff_ne, Ne]
        intro he
        exact hk (he ▸ hc)
      have hdrop : recDelete (kv :: t) k = recDelete t k := by
        simp [recDelete, List.filter_cons, hc]
      rw [hdrop, ih]
      simp [recGet, hkn]
    · have hkeep : recDelete (kv :: t) k = kv :: recDelete t k := by
        simp [recDelete, List.filter_cons, hc]
      rw [hkeep]
      by_cases hc2 : kv.1 = k2
      · simp [recGet, hc2]
      · simpa [recGet, hc2] using ih

/-- `addCORSHeaders` leaves lookups of non-CORS names untouched. -/
theorem hGet_addCORSHeaders (r : ResHeaders) (n : Str)
    (h1 : hKeyMatches (str ("Access-Control-Allow-Origin")) n = false)
    (h2 : hKeyMatches (str ("Access-Control-Allow-Methods")) n = false)
    (h3 : hKeyMatches (str ("Access-Control-Allow-Headers")) n = false)
    (h4 : hKeyMatches (str ("Access-Control-Allow-Credentials")) n = false) :
    hGet (addCORSHeaders r).base n = hGet r.base n := by
  simp only [addCORSHeaders]
  rw [hGet_hSet_ne _ _ _ _ h4, hGet_hSet_ne _ _ _ _ h3, hGet_hSet_ne _ _ _ _ h2,
    hGet_hSet_ne _ _ _ _ h1]

/-- `mapCookieDomains` never touches the single-valued headers. -/
theorem mapCookieDomains_base (up : UpstreamHeaders) (r : ResHeaders) (reqHost : Str) :
    (mapCookieDomains up r reqHost).base = r.base := by
  cases hsc : up.setCookie <;> simp [mapCookieDomains, hsc]

/-- `overrideCSPFrameAncestors` leaves lookups of non-CSP names untouched. -/
theorem hGet_overrideCSP_ne (up : UpstreamHeaders) (r : ResHeaders) (n : Str)
    (hn : hKeyMatches (str ("Content-Security-Policy")) n = false) :
    hGet (overrideCSPFrameAncestors up r).base n = hGet r.base n := by
  cases hcsp : recGet up.base (str ("content-security-policy")) with
  | none => simp [overrideCSPFrameAncestors, hcsp]
  | some v =>
    by_cases hv : v = []
    · simp [overrideCSPFrameAncestors, hcsp, hv]
    · simp only [overrideCSPFrameAncestors, hcsp, if_neg hv]
      exact hGet_hSet_ne _ _ _ _ hn

/-- With a non-empty upstream CSP, `overrideCSPFrameAncestors` sets the
rebuilt directives with `frame-ancestors` removed. -/
theorem hGet_overrideCSP_some (up : UpstreamHeaders) (r : ResHeaders) (v : Str)
    (hcsp : recGet up.base (str ("content-security-policy")) = some v) (hv : v ≠ []) :
    hGet (overrideCSPFrameAncestors up r).base (str ("content-security-policy")) =
      some (buildCSPDirectives (recDelete (parseCSPDirectives v) (str ("frame-ancestors")))) := by
  simp only [overrideCSPFrameAncestors, hcsp, if_neg hv]
  exact hGet_hSet_match _ _ _ _ (by decide)

/-- `removeAntiFramingHeaders` does not affect the upstream CSP entry. -/
theorem recGet_removeAntiFraming_csp (up : UpstreamHeaders) (res : ResHeaders) :
    recGet (removeAntiFramingHeaders up res).1.base (str ("content-security-policy")) =
      recGet up.base (str ("content-security-policy")) := by
  cases hx : recGet up.base (str ("x-frame-options")) with
  | none => simp [removeAntiFramingHeaders, hx]
  | some v =>
    by_cases hv : v = []
    · simp [removeAntiFramingHeaders, hx, hv]
    · simp only [removeAntiFramingHeaders, hx, if_neg hv]
      exact recGet_recDelete_ne _ _ _ (by decide)

/-- C5, counterexample: when removing `frame-ancestors` leaves no
directives, the `Content-Security-Policy` header is not omitted — it is
set to the empty string. -/
theorem csp_omission_cex :
    hGet (manipulateResponseHeaders cspScenarioUp (str ("localhost:3000")) emptyRes).2.base
        (str ("content-security-policy")) = some [] ∧
    hGet (manipulateResponseHeaders cspScenarioUp (str ("localhost:3000")) emptyRes).2.base
        (str ("content-security-policy")) ≠ none := by
  refine ⟨by decide, by decide⟩

/-- C5, amended: downstream header processing never emits
`X-Frame-Options`, and rebuilds a (non-empty) upstream CSP from its
`;`-split, whitespace-split directives with `frame-ancestors` removed;
when no directives remain the header is set to the empty string rather
than omitted. -/
theorem downstreamHeaders_amended :
    (∀ up reqHost res,
      hGet (manipulateResponseHeaders up reqHost res).2.base (str ("x-frame-options")) = none) ∧
    (∀ up reqHost res v,
      recGet up.base (str ("content-security-policy")) = some v → v ≠ [] →
      hGet (manipulateResponseHeaders up reqHost res).2.base (str ("content-security-policy")) =
        some (buildCSPDirectives (recDelete (parseCSPDirectives v) (str ("frame-ancestors"))))) ∧
    hGet (manipulateResponseHeaders cspScenarioUp (str ("localhost:3000")) emptyRes).2.base
        (str ("content-security-policy")) = some [] := by
  refine ⟨?_, ?_, by decide⟩
  · intro up reqHost res
    simp only [manipulateResponseHeaders]
    rw [mapCookieDomains_base,
      hGet_addCORSHeaders _ _ (by decide) (by decide) (by decide) (by decide),
      hGet_overrideCSP_ne _ _ _ (by decide)]
    have hproj : (removeAntiFramingHeaders up res).2.base =
        hRemove res.base (str ("X-Frame-Options")) := rfl
    rw [hproj]
    exact hGet_hRemove_match _ _ _ (by decide)
  · intro up reqHost res v hcsp hv
    simp only [manipulateResponseHeaders]
    rw [mapCookieDomains_base,
      hGet_addCORSHeaders _ _ (by decide) (by decide) (by decide) (by decide)]
    exact hGet_overrideCSP_some _ _ _ (by rwa [recGet_removeAntiFraming_csp]) hv

/-- C5 witness: both universal clauses at the frame-ancestors-only CSP. -/
theorem downstreamHeaders_amended_witness :
    recGet cspScenarioUp.base (str ("content-security-policy")) =
      some (str ("frame-ancestors 'self'")) ∧
    hGet (manipulateResponseHeaders cspScenarioUp (str ("h")) emptyRes).2.base
      (str ("x-frame-options")) = none ∧
    hGet (manipulateResponseHeaders cspScenarioUp (str ("h")) emptyRes).2.base
      (str ("content-security-policy")) =
      some (buildCSPDirectives (recDelete
        (parseCSPDirectives (str ("frame-ancestors 'self'"))) (str ("frame-ancestors")))) :=
  ⟨by decide,
   downstreamHeaders_amended.1 cspScenarioUp (str ("h")) emptyRes,
   downstreamHeaders_amended.2.1 cspScenarioUp (str ("h")) emptyRes
     (str ("frame-ancestors 'self'")) (by decide) (by decide)⟩

/-- C6: body rewriting dispatches on the extracted MIME type — `text/html`
to the HTML processor, `text/css` to the CSS processor, the two
JavaScript types to the JS processor, `application/json` to the JSON
processor, and anything else passes through byte-identical; extraction
takes the part before the first `;`, lower-cased, defaulting to
`text/plain` when the header is absent. -/
theorem mimeDispatch :
    (∀ content contentType ctx opts,
      extractMimeType contentType ≠ str ("text/html") →
      extractMimeType contentType ≠ str ("text/css") →
      extractMimeType contentType ≠ str ("application/javascript") →
      extractMimeType contentType ≠ str ("text/javascript") →
      extractMimeType contentType ≠ str ("application/json") →
      processContent content contentType ctx opts = content) ∧
    (∀ content ctx opts, processContent content (str ("TEXT/HTML; charset=utf-8")) ctx opts =
      processHtmlContent content ctx opts) ∧
    (∀ content ctx opts, processContent content (str ("text/css")) ctx opts =
      processCssContent content ctx opts) ∧
    (∀ content ctx opts, processContent content (str ("application/JavaScript")) ctx opts =
      processJavaScriptContent content ctx opts) ∧
    (∀ content ctx opts, processContent content (str ("Text/JavaScript ; q=1")) ctx opts =
      processJavaScriptContent content ctx opts) ∧
    (∀ content ctx opts, processContent content (str ("application/json; charset=utf-8")) ctx opts =
      processJsonContent content ctx opts) ∧
    extractMimeType [] = str ("text/plain") ∧
    extractMimeType (str ("Image/PNG; x=y")) = str ("image/png") := by
  refine ⟨?_, fun content ctx opts => rfl, fun content ctx opts => rfl,
    fun content ctx opts => rfl, fun content ctx opts => rfl, fun content ctx opts => rfl,
    by decide, by decide⟩
  intro content contentType ctx opts h1 h2 h3 h4 h5
  simp only [processContent]
  rw [if_neg h1, if_neg h2, if_neg (fun hor => hor.elim h3 h4), if_neg h5]

/-- C6 witness: passthrough at `image/png`. -/
theorem mimeDispatch_witness :
    extractMimeType (str ("image/png")) ≠ str ("text/html") ∧
    processContent (str ("RAWBYTES")) (str ("image/png")) scenarioCtx
      defaultProcessingOptions = str ("RAWBYTES") :=
  ⟨by decide,
   mimeDispatch.1 (str ("RAWBYTES")) (str ("image/png")) scenarioCtx defaultProcessingOptions
     (by decide) (by decide) (by decide) (by decide) (by decide)⟩

/-- C7: the JSON rewrite path is fail-open — whenever `JSON.parse` fails,
`processContent` returns the original input unchanged. -/
theorem jsonFailOpen (json : Str) (ctx : RewriteContext) (h : jsonParse json = none) :
    processContent json (str ("application/json")) ctx defaultProcessingOptions = json := by
  have hdisp : processContent json (str ("application/json")) ctx defaultProcessingOptions =
      processJsonContent json ctx defaultProcessingOptions := rfl
  rw [hdisp]
  simp [processJsonContent, defaultProcessingOptions, h]

/-- C7 witness: the truncated object `{"a": ` fails to parse and passes
through unchanged. -/
theorem jsonFailOpen_witness :
    jsonParse (str ("\x7b\"a\": ")) = none ∧
    processContent (str ("\x7b\"a\": ")) (str ("application/json")) scenarioCtx
      defaultProcessingOptions = str ("\x7b\"a\": ") :=
  ⟨rfl, jsonFailOpen (str ("\x7b\"a\": ")) scenarioCtx rfl⟩

/-- C8, counterexample: for origin `Location: /new` on a request for
`https://example.com/old` the redirect sent to the client carries the
proxy-relative `Location: /proxy/example.com/new`, not the absolute
`http://localhost:3000/proxy/example.com/new` the claim states. -/
theorem redirectLocation_cex :
    parseJsUrl (str ("https://example.com/old")) = some exampleOldUrl ∧
    handleRedirect 302 (some (str ("/new"))) exampleOldUrl =
      some (302, str ("/proxy/example.com/new")) ∧
    str ("/proxy/example.com/new") ≠ str ("http://localhost:3000/proxy/example.com/new") := by
  refine ⟨by decide, by decide, by decide⟩

/-- C8, amended: only 3xx responses are handled; an absolute-path origin
location (no query/fragment) resolved against the target yields the
proxy-relative redirect `/proxy/{host}{path}`, which is what Scenario 3's
`/new` produces for `https://example.com/old`. -/
theorem redirectLocation_amended :
    (∀ statusCode loc targetUrl, statusCode < 300 ∨ 400 ≤ statusCode →
      handleRedirect statusCode loc targetUrl = none) ∧
    (∀ statusCode rest targetUrl, 300 ≤ statusCode → statusCode < 400 →
      jsStartsWith rest (str ("/")) = false →
      breakOn (str ("#")) ('/' :: rest) = none →
      breakOn (str ("?")) ('/' :: rest) = none →
      handleRedirect statusCode (some ('/' :: rest)) targetUrl =
        some (statusCode, str ("/proxy/") ++ targetUrl.hostname ++ '/' :: rest)) ∧
    handleRedirect 302 (some (str ("/new"))) exampleOldUrl =
      some (302, str ("/proxy/example.com/new")) := by
  refine ⟨?_, ?_, by decide⟩
  · intro statusCode loc targetUrl h
    have hno : ¬(300 ≤ statusCode ∧ statusCode < 400) := by omega
    simp [handleRedirect, hno]
  · intro statusCode rest targetUrl h1 h2 h3 h4 h5
    have e0 : jsStartsWith ('/' :: rest) (str ("http")) = false := rfl
    have e1 : jsStartsWith ('/' :: rest) (str ("http://")) = false := rfl
    have e2 : jsStartsWith ('/' :: rest) (str ("https://")) = false := rfl
    have e3 : jsStartsWith ('/' :: rest) (str ("//")) = false := by
      show ((('/' : Char) == '/') && jsStartsWith rest (str ("/"))) = false
      simp [h3]
    have e4 : jsStartsWith ('/' :: rest) (str ("/")) = true := by
      show ((('/' : Char) == '/') && jsStartsWith rest []) = true
      simp
    simp only [handleRedirect, if_pos (And.intro h1 h2)]
    simp only [e0, Bool.false_eq_true, if_false]
    simp only [resolveJsUrl, e1, e2, e3, e4, Bool.false_or, Bool.or_self,
      Bool.false_eq_true, if_false, if_true]
    simp only [splitPathSearchHash, h4, h5]
    simp

/-- C8 witness: the amended clauses at status 301 / location `/new2`, and
at the non-redirect status 200. -/
theorem redirectLocation_amended_witness :
    jsStartsWith (str ("new2")) (str ("/")) = false ∧
    handleRedirect 301 (some (str ("/new2"))) exampleOldUrl =
      some (301, str ("/proxy/example.com/new2")) ∧
    handleRedirect 200 (some (str ("/x"))) exampleOldUrl = none :=
  ⟨by decide,
   redirectLocation_amended.2.1 301 (str ("new2")) exampleOldUrl (by decide) (by decide)
     (by decide) (by decide) (by decide),
   redirectLocation_amended.1 200 (some (str ("/x"))) exampleOldUrl (Or.inl (by decide))⟩

/-- C9: upstream failures map to distinct JSON error responses carrying
`error` and `details` — messages containing `timeout` to 504,
`ECONNREFUSED` and `ENOTFOUND` to 502 — nothing is written once response
headers are sent, and of the two timeout listeners only the first
(detail-carrying) one ever writes. -/
theorem upstreamFailure_mapping :
    (∀ msg, onProxyReqError true msg = none) ∧
    (∀ hs msg, hs = false → onProxyReqError hs msg = some (directProxyErrorResponse msg)) ∧
    (∀ msg, jsIncludes msg (str ("timeout")) = true →
      (directProxyErrorResponse msg).1 = 504) ∧
    (∀ msg, jsIncludes msg (str ("timeout")) = false →
      jsIncludes msg (str ("ECONNREFUSED")) = true →
      (directProxyErrorResponse msg).1 = 502) ∧
    (∀ msg, jsIncludes msg (str ("timeout")) = false →
      jsIncludes msg (str ("ECONNREFUSED")) = false →
      jsIncludes msg (str ("ENOTFOUND")) = true →
      (directProxyErrorResponse msg).1 = 502) ∧
    (∀ msg, recGet (directProxyErrorResponse msg).2 (str ("error")) ≠ none ∧
      recGet (directProxyErrorResponse msg).2 (str ("details")) ≠ none) ∧
    onProxyReqTimeout true = [] ∧
    onProxyReqTimeout false = [(504,
      [(str ("error"), str ("Proxy request timeout")),
       (str ("details"), str ("The target server took too long to respond"))])] := by
  refine ⟨fun msg => rfl, ?_, ?_, ?_, ?_, ?_, by decide, by decide⟩
  · intro hs msg h
    subst h
    rfl
  · intro msg h
    simp [directProxyErrorResponse, h]
  · intro msg h1 h2
    simp [directProxyErrorResponse, h1, h2]
  · intro msg h1 h2 h3
    simp [directProxyErrorResponse, h1, h2, h3]
  · intro msg
    by_cases h1 : jsIncludes msg (str ("timeout")) = true
    · constructor <;> simp [directProxyErrorResponse, h1, recGet]
    · by_cases h2 : jsIncludes msg (str ("ECONNREFUSED")) = true
      · constructor <;>
          simp [directProxyErrorResponse, Bool.eq_false_iff.mpr h1, h2, recGet]
      · by_cases h3 : jsIncludes msg (str ("ENOTFOUND")) = true
        · constructor <;>
            simp [directProxyErrorResponse, Bool.eq_false_iff.mpr h1,
              Bool.eq_false_iff.mpr h2, h3, recGet]
        · constructor <;>
            simp [directProxyErrorResponse, Bool.eq_false_iff.mpr h1,
              Bool.eq_false_iff.mpr h2, Bool.eq_false_iff.mpr h3, recGet]

/-- C9 witness: the mapping clauses at concrete error messages. -/
theorem upstreamFailure_mapping_witness :
    jsIncludes (str ("connect ECONNREFUSED 93.184.216.34:443")) (str ("ECONNREFUSED")) = true ∧
    (directProxyErrorResponse (str ("connect ECONNREFUSED 93.184.216.34:443"))).1 = 502 ∧
    (directProxyErrorResponse (str ("socket timeout"))).1 = 504 ∧
    (directProxyErrorResponse (str ("getaddrinfo ENOTFOUND bad.example"))).1 = 502 :=
  ⟨by decide,
   upstreamFailure_mapping.2.2.2.1 (str ("connect ECONNREFUSED 93.184.216.34:443"))
     (by decide) (by decide),
   upstreamFailure_mapping.2.2.1 (str ("socket timeout")) (by decide),
   upstreamFailure_mapping.2.2.2.2.1 (str ("getaddrinfo ENOTFOUND bad.example"))
     (by decide) (by decide) (by decide)⟩

/-- C10: `extractTargetUrl` maps `/proxy/nouns.com` (with or without a
trailing slash) to `https://www.nouns.com/`, and performs no such
substitution on any request whose raw target differs from
`https://nouns.com` and `https://nouns.com/`. -/
theorem nounsTargetFixup :
    extractTargetUrl (mkReq ("/proxy/nouns.com") ("/proxy/nouns.com")) =
      some (str ("https://www.nouns.com/")) ∧
    extractTargetUrl (mkReq ("/proxy/nouns.com/") ("/proxy/nouns.com/")) =
      some (str ("https://www.nouns.com/")) ∧
    (∀ req t, rawTargetUrl req = some t →
      t ≠ str ("https://nouns.com") → t ≠ str ("https://nouns.com/") →
      extractTargetUrl req = finishTargetUrl t req) ∧
    extractTargetUrl (mkReq ("/proxy/nouns.com/about") ("/proxy/nouns.com/about")) =
      some (str ("https://nouns.com/about")) ∧
    extractTargetUrl (mkReq ("/proxy/example.com") ("/proxy/example.com")) =
      some (str ("https://example.com")) := by
  refine ⟨by decide, by decide, ?_, by decide, by decide⟩
  intro req t h h1 h2
  simp [extractTargetUrl, h, nounsFix, h1, h2]

/-- C10 witness: the no-substitution clause at `/proxy/example.com/a` with
a query string. -/
theorem nounsTargetFixup_witness :
    rawTargetUrl (mkReq ("/proxy/example.com/a") ("/proxy/example.com/a?q=1")) =
      some (str ("https://example.com/a")) ∧
    extractTargetUrl (mkReq ("/proxy/example.com/a") ("/proxy/example.com/a?q=1")) =
      finishTargetUrl (str ("https://example.com/a"))
        (mkReq ("/proxy/example.com/a") ("/proxy/example.com/a?q=1")) :=
  ⟨by decide,
   nounsTargetFixup.2.2.1 _ _ (by decide) (by decide) (by decide)⟩

end FramingProxy
